import Mathlib

/-!
Shallow embedding of the syscall layer of the skift kernel (`syscalls.c`):
the user-pointer address validator, the syscall handlers that consume it,
and the table-driven syscall dispatcher, together with theorems settling
the specification claims about them.

Machine integers are embedded as `Nat` (for the unsigned 32-bit types
`uintptr_t`, `size_t` and the register file) and `Int` (for C `int`
results), with wrap-around made explicit as `% 4294967296` where the C
arithmetic wraps.
-/

/-- 2^32, the modulus of the 32-bit address/size arithmetic (`uintptr_t`
and `size_t` on the i386 target). -/
def UINT32_MOD : Nat := 4294967296

/-- Reinterpret a 32-bit register value (a `Nat` below 2^32) as a signed
C `int` (two's complement). -/
def toInt32 (n : Nat) : Int :=
  if n % UINT32_MOD < 2147483648 then ((n % UINT32_MOD : Nat) : Int)
  else ((n % UINT32_MOD : Nat) : Int) - 4294967296

/-- Store a signed C `int` into a 32-bit register (two's complement bit
pattern as a `Nat` below 2^32). -/
def toUInt32 (i : Int) : Nat := (i % 4294967296).toNat

/-- Modelled from the spec: the shared error taxonomy (`libsystem/error.h`)
is not among the given sources. Per the spec's syscall ABI, "negative
values encode an error code from a shared taxonomy", so the enumeration
constants themselves are positive (success is 0) and are negated when
returned. Only `ERR_SUCCESS = 0` and the positivity and distinctness of
the other codes matter to the theorems; representative values are chosen. -/
def ERR_SUCCESS : Int := 0

/-- Modelled from the spec: the positive "bad address" code of the error
taxonomy (`BadAddress`). -/
def ERR_BAD_ADDRESS : Int := 14

/-- Modelled from the spec: the positive "function not implemented" code
of the error taxonomy (`NotImplemented`). -/
def ERR_FUNCTION_NOT_IMPLEMENTED : Int := 20

/-- `sizeof(int)` on the i386 target. -/
def sizeof_int : Nat := 4

/-- `sizeof(size_t)` on the i386 target. -/
def sizeof_size_t : Nat := 4

/-- Modelled from the spec: the byte size of the `Launchpad` structure
(declared in an abi header not among the given sources). Any positive
value; the theorems never depend on the exact number. -/
def sizeof_Launchpad : Nat := 168

/-- Modelled from the spec: the byte size of the `SelectEvent` type
(declared in an abi header not among the given sources). Any positive
value; the theorems never depend on the exact number. -/
def sizeof_SelectEvent : Nat := 8

/-- Modelled from the spec: the byte size of the `FileState` structure
(declared in an abi header not among the given sources). Any positive
value; the theorems never depend on the exact number. -/
def sizeof_FileState : Nat := 20

/-- `syscall_validate_ptr(uintptr_t ptr, size_t size)` from `syscalls.c`:
`ptr >= 0x100000 && ptr + size >= 0x100000 && ptr + size >= ptr`, where
`ptr + size` is 32-bit arithmetic and therefore wraps modulo 2^32. -/
def syscall_validate_ptr (ptr size : Nat) : Bool :=
  decide (0x100000 ≤ ptr) &&
  decide (0x100000 ≤ (ptr + size) % UINT32_MOD) &&
  decide (ptr ≤ (ptr + size) % UINT32_MOD)

/-- C1 counterexample: the claim "for every length, base == 0x100000 is
accepted" is false at length 0xFFF00000, where base + length wraps to 0
and the validator rejects. -/
theorem c1_counterexample :
    syscall_validate_ptr 0x100000 0xFFF00000 = false := by decide

/-- C1 (amended): the validator accepts (base, length) iff base is at or
above the watermark 0x100000, base + length does not wrap around the
32-bit address type, and base + length is at or above the watermark; in
particular base == 0x100000 is accepted for every length whose sum with
the base does not wrap, and base == 0x100000 - 1 is rejected for every
length. -/
theorem c1_amended :
    (∀ ptr size : Nat, ptr < UINT32_MOD → size < UINT32_MOD →
      (syscall_validate_ptr ptr size = true ↔
        0x100000 ≤ ptr ∧ ptr + size < UINT32_MOD ∧ 0x100000 ≤ ptr + size)) ∧
    (∀ size : Nat, 0x100000 + size < UINT32_MOD →
      syscall_validate_ptr 0x100000 size = true) ∧
    (∀ size : Nat, syscall_validate_ptr (0x100000 - 1) size = false) := by
  refine ⟨fun ptr size hp hs => ?_, fun size hs => ?_, fun size => ?_⟩
  · simp only [syscall_validate_ptr, Bool.and_eq_true, decide_eq_true_eq, UINT32_MOD] at *
    omega
  · simp only [syscall_validate_ptr, Bool.and_eq_true, decide_eq_true_eq, UINT32_MOD] at *
    omega
  · simp [syscall_validate_ptr]

/-- C1 witness: the amended claim at concrete inputs — base 0x100000 with
length 4 is accepted, base 0x100000 - 1 with length 7 is rejected. -/
theorem c1_witness :
    syscall_validate_ptr 0x100000 4 = true ∧
    syscall_validate_ptr (0x100000 - 1) 7 = false :=
  ⟨c1_amended.2.1 4 (by decide), c1_amended.2.2 7⟩

/-- C9: the validator is monotone in the length: for 32-bit `ptr`, `s`, `t`
with `s ≤ t`, acceptance of `(ptr, t)` implies acceptance of `(ptr, s)`;
and every zero-length range whose base is at or above 0x100000 is
accepted. -/
theorem c9_monotone :
    (∀ ptr s t : Nat, ptr < UINT32_MOD → t < UINT32_MOD → s ≤ t →
      syscall_validate_ptr ptr t = true → syscall_validate_ptr ptr s = true) ∧
    (∀ ptr : Nat, ptr < UINT32_MOD → 0x100000 ≤ ptr →
      syscall_validate_ptr ptr 0 = true) := by
  constructor
  · intro ptr s t hp ht hst h
    simp only [syscall_validate_ptr, Bool.and_eq_true, decide_eq_true_eq, UINT32_MOD] at *
    omega
  · intro ptr hp hw
    simp only [syscall_validate_ptr, Bool.and_eq_true, decide_eq_true_eq, UINT32_MOD] at *
    omega

/-- C9 witness: monotonicity applied at ptr = 0x100000, s = 1, t = 2, and
the zero-length case at ptr = 0x200000. -/
theorem c9_witness :
    syscall_validate_ptr 0x100000 1 = true ∧
    syscall_validate_ptr 0x200000 0 = true :=
  ⟨c9_monotone.1 0x100000 1 2 (by decide) (by decide) (by decide) (by decide),
   c9_monotone.2 0x200000 (by decide) (by decide)⟩

/-- A call made by a syscall handler into the kernel collaborator layer
(tasking / filesystem / messaging), recording the raw argument values the
handler passes through. -/
inductive KernelCall where
  | taskLaunch (launchpad : Nat)
  | taskMessagingSend (event : Nat)
  | taskFshandleConnect (handle : Nat) (path : Nat)
  | taskFshandleOpen (handle : Nat) (path : Nat) (flags : Int)
  | taskFshandleSelect (handles : Nat) (events : Nat) (count : Nat) (selected : Nat)
  | taskFshandleRead (handle : Int) (buffer : Nat) (size : Nat) (readed : Nat)
  | taskFshandleWrite (handle : Int) (buffer : Nat) (size : Nat) (written : Nat)
  | taskFshandleTell (handle : Int) (whence : Int) (offset : Nat)
  | taskFshandleStat (handle : Int) (state : Nat)
  | taskMemoryFree (addr : Nat) (count : Nat)
deriving DecidableEq

/-- The kernel collaborator layer the handlers delegate to (`task_launch`,
`task_messaging_send`, `task_fshandle_*`, `task_memory_free`, declared in
headers whose bodies are outside `syscalls.c`), embedded as an
environment of result functions so the handlers can be stated for every
behaviour of that layer. -/
structure TaskLayer where
  task_launch : Nat → Int
  task_messaging_send : Nat → Int
  task_fshandle_connect : Nat → Nat → Int
  task_fshandle_open : Nat → Nat → Int → Int
  task_fshandle_select : Nat → Nat → Nat → Nat → Int
  task_fshandle_read : Int → Nat → Nat → Nat → Int
  task_fshandle_write : Int → Nat → Nat → Nat → Int
  task_fshandle_tell : Int → Int → Nat → Int
  task_fshandle_stat : Int → Nat → Int
  task_memory_free : Nat → Nat → Int

/-- A collaborator layer whose every operation returns 0. -/
def envZero : TaskLayer where
  task_launch := fun _ => 0
  task_messaging_send := fun _ => 0
  task_fshandle_connect := fun _ _ => 0
  task_fshandle_open := fun _ _ _ => 0
  task_fshandle_select := fun _ _ _ _ => 0
  task_fshandle_read := fun _ _ _ _ => 0
  task_fshandle_write := fun _ _ _ _ => 0
  task_fshandle_tell := fun _ _ _ => 0
  task_fshandle_stat := fun _ _ => 0
  task_memory_free := fun _ _ => 0

/-- A collaborator layer whose `task_memory_free` rejects every request
with a negative error code. -/
def envFreeFails : TaskLayer :=
  { envZero with task_memory_free := fun _ _ => -14 }

/-- `sys_process_launch` from `syscalls.c`: validates the launchpad
pointer against `sizeof(Launchpad)` and returns `-ERR_BAD_ADDRESS` on
failure, otherwise delegates to `task_launch`. -/
def sys_process_launch (env : TaskLayer) (launchpad : Nat) : Int × List KernelCall :=
  if !(syscall_validate_ptr launchpad sizeof_Launchpad) then
    (-ERR_BAD_ADDRESS, [])
  else
    (env.task_launch launchpad, [KernelCall.taskLaunch launchpad])

/-- `sys_process_free` from `syscalls.c`: calls `task_memory_free` and
returns 0 unconditionally, discarding the collaborator's result. -/
def sys_process_free (env : TaskLayer) (addr count : Nat) : Int × List KernelCall :=
  (0, [KernelCall.taskMemoryFree addr count])

/-- `sys_messaging_send` from `syscalls.c`: delegates the raw event
pointer to `task_messaging_send` with no validation. -/
def sys_messaging_send (env : TaskLayer) (event : Nat) : Int × List KernelCall :=
  (env.task_messaging_send event, [KernelCall.taskMessagingSend event])

/-- `sys_handle_connect` from `syscalls.c`: delegates the raw handle and
path pointers to `task_fshandle_connect` with no validation. -/
def sys_handle_connect (env : TaskLayer) (handle path : Nat) : Int × List KernelCall :=
  (env.task_fshandle_connect handle path, [KernelCall.taskFshandleConnect handle path])

/-- `sys_handle_open` from `syscalls.c`: validates the output handle
pointer against `sizeof(int)` and returns `ERR_BAD_ADDRESS` (not negated)
on failure, otherwise delegates to `task_fshandle_open`. -/
def sys_handle_open (env : TaskLayer) (handle path : Nat) (flags : Int) : Int × List KernelCall :=
  if !(syscall_validate_ptr handle sizeof_int) then
    (ERR_BAD_ADDRESS, [])
  else
    (env.task_fshandle_open handle path flags, [KernelCall.taskFshandleOpen handle path flags])

/-- `sys_handle_select` from `syscalls.c`: validates the handles array
over `sizeof(int) * count` bytes, the events array over
`sizeof(SelectEvent) * count` bytes (both products in wrapping `size_t`
arithmetic) and the selected output pointer over `sizeof(int)` bytes;
returns `ERR_BAD_ADDRESS` (not negated) if any fails, otherwise delegates
to `task_fshandle_select`. -/
def sys_handle_select (env : TaskLayer) (handles events count selected : Nat) :
    Int × List KernelCall :=
  if !(syscall_validate_ptr handles ((sizeof_int * count) % UINT32_MOD)) ||
     !(syscall_validate_ptr events ((sizeof_SelectEvent * count) % UINT32_MOD)) ||
     !(syscall_validate_ptr selected sizeof_int) then
    (ERR_BAD_ADDRESS, [])
  else
    (env.task_fshandle_select handles events count selected,
     [KernelCall.taskFshandleSelect handles events count selected])

/-- `sys_handle_read` from `syscalls.c`: validates the buffer over `size`
bytes and the byte-count output pointer over `sizeof(size_t)` bytes;
returns `ERR_BAD_ADDRESS` (not negated) if either fails, otherwise
delegates to `task_fshandle_read`. -/
def sys_handle_read (env : TaskLayer) (handle : Int) (buffer size readed : Nat) :
    Int × List KernelCall :=
  if !(syscall_validate_ptr buffer size) ||
     !(syscall_validate_ptr readed sizeof_size_t) then
    (ERR_BAD_ADDRESS, [])
  else
    (env.task_fshandle_read handle buffer size readed,
     [KernelCall.taskFshandleRead handle buffer size readed])

/-- `sys_handle_write` from `syscalls.c`: validates the buffer over `size`
bytes and the byte-count output pointer over `sizeof(size_t)` bytes;
returns `ERR_BAD_ADDRESS` (not negated) if either fails, otherwise
delegates to `task_fshandle_write`. -/
def sys_handle_write (env : TaskLayer) (handle : Int) (buffer size written : Nat) :
    Int × List KernelCall :=
  if !(syscall_validate_ptr buffer size) ||
     !(syscall_validate_ptr written sizeof_size_t) then
    (ERR_BAD_ADDRESS, [])
  else
    (env.task_fshandle_write handle buffer size written,
     [KernelCall.taskFshandleWrite handle buffer size written])

/-- `sys_handle_tell` from `syscalls.c`: validates the offset output
pointer over `sizeof(int)` bytes; returns `ERR_BAD_ADDRESS` (not negated)
on failure, otherwise delegates to `task_fshandle_tell`. -/
def sys_handle_tell (env : TaskLayer) (handle whence : Int) (offset : Nat) :
    Int × List KernelCall :=
  if !(syscall_validate_ptr offset sizeof_int) then
    (ERR_BAD_ADDRESS, [])
  else
    (env.task_fshandle_tell handle whence offset,
     [KernelCall.taskFshandleTell handle whence offset])

/-- `sys_handle_stat` from `syscalls.c`: validates the state output
pointer over `sizeof(FileState)` bytes; returns `ERR_BAD_ADDRESS` (not
negated) on failure, otherwise delegates to `task_fshandle_stat`. -/
def sys_handle_stat (env : TaskLayer) (handle : Int) (state : Nat) :
    Int × List KernelCall :=
  if !(syscall_validate_ptr state sizeof_FileState) then
    (ERR_BAD_ADDRESS, [])
  else
    (env.task_fshandle_stat handle state, [KernelCall.taskFshandleStat handle state])

/-- Any pointer below the watermark fails validation, for every length. -/
theorem validate_below_watermark (ptr size : Nat) (h : ptr < 0x100000) :
    syscall_validate_ptr ptr size = false := by
  simp only [syscall_validate_ptr, Bool.and_eq_false_iff, decide_eq_false_iff_not]
  omega

/-- C3: `sys_messaging_send` and `sys_handle_connect` run no address
validation — even the null pointer 0, which fails validation at every
length, is passed straight to the collaborator layer (and with a
collaborator returning 0 the call even reports success instead of a bad
address error). -/
theorem c3_handlers_skip_validation :
    (∀ size : Nat, syscall_validate_ptr 0 size = false) ∧
    sys_messaging_send envZero 0 = (0, [KernelCall.taskMessagingSend 0]) ∧
    sys_handle_connect envZero 0 0 = (0, [KernelCall.taskFshandleConnect 0 0]) ∧
    (∀ env : TaskLayer, ∀ event : Nat,
      (sys_messaging_send env event).2 = [KernelCall.taskMessagingSend event]) :=
  ⟨fun size => validate_below_watermark 0 size (by decide), rfl, rfl, fun _ _ => rfl⟩

/-- C4 counterexample: on a pointer-validation failure, the handle
syscall `open` returns the positive code `ERR_BAD_ADDRESS`, not a
negative one — the caller sees a non-negative result. -/
theorem c4_counterexample :
    (sys_handle_open envZero 0 0 0).1 = ERR_BAD_ADDRESS ∧
    0 < (sys_handle_open envZero 0 0 0).1 := by decide

/-- C4 (amended): on a pointer-validation failure, `process_launch`
returns the negative code `-ERR_BAD_ADDRESS`, but the handle syscalls
open, select, read, write, tell and stat return the positive code
`ERR_BAD_ADDRESS`, so their callers see a non-negative result. -/
theorem c4_amended (env : TaskLayer) (p path cnt : Nat) (flags whence handle : Int)
    (h : p < 0x100000) :
    (sys_process_launch env p).1 = -ERR_BAD_ADDRESS ∧
    (sys_handle_open env p path flags).1 = ERR_BAD_ADDRESS ∧
    (sys_handle_select env p p cnt p).1 = ERR_BAD_ADDRESS ∧
    (sys_handle_read env handle p cnt p).1 = ERR_BAD_ADDRESS ∧
    (sys_handle_write env handle p cnt p).1 = ERR_BAD_ADDRESS ∧
    (sys_handle_tell env handle whence p).1 = ERR_BAD_ADDRESS ∧
    (sys_handle_stat env handle p).1 = ERR_BAD_ADDRESS ∧
    -ERR_BAD_ADDRESS < 0 ∧ 0 < ERR_BAD_ADDRESS := by
  have hv : ∀ size : Nat, syscall_validate_ptr p size = false :=
    fun size => validate_below_watermark p size h
  refine ⟨?_, ?_, ?_, ?_, ?_, ?_, ?_, by decide, by decide⟩ <;>
    simp [sys_process_launch, sys_handle_open, sys_handle_select, sys_handle_read,
      sys_handle_write, sys_handle_tell, sys_handle_stat, hv]

/-- C4 witness: the amended claim at pointer 0 with the all-zero
collaborator layer. -/
theorem c4_witness :
    (sys_process_launch envZero 0).1 = -ERR_BAD_ADDRESS ∧
    (sys_handle_open envZero 0 0 0).1 = ERR_BAD_ADDRESS ∧
    (sys_handle_select envZero 0 0 0 0).1 = ERR_BAD_ADDRESS ∧
    (sys_handle_read envZero 0 0 0 0).1 = ERR_BAD_ADDRESS ∧
    (sys_handle_write envZero 0 0 0 0).1 = ERR_BAD_ADDRESS ∧
    (sys_handle_tell envZero 0 0 0).1 = ERR_BAD_ADDRESS ∧
    (sys_handle_stat envZero 0 0).1 = ERR_BAD_ADDRESS ∧
    -ERR_BAD_ADDRESS < 0 ∧ 0 < ERR_BAD_ADDRESS :=
  c4_amended envZero 0 0 0 0 0 0 (by decide)

/-- C5: if the launchpad pointer fails validation, `sys_process_launch`
returns `-ERR_BAD_ADDRESS` and makes no collaborator call at all —
`task_launch` is never invoked, so no task is created and no other state
is touched. -/
theorem c5_launch_bad_address (env : TaskLayer) (launchpad : Nat)
    (h : syscall_validate_ptr launchpad sizeof_Launchpad = false) :
    sys_process_launch env launchpad = (-ERR_BAD_ADDRESS, []) := by
  simp [sys_process_launch, h]

/-- C5 witness: launching with the below-watermark pointer 0 returns
`-ERR_BAD_ADDRESS` and invokes nothing. -/
theorem c5_witness :
    sys_process_launch envZero 0 = (-ERR_BAD_ADDRESS, []) :=
  c5_launch_bad_address envZero 0 (by decide)

/-- C6: `sys_handle_select` validates the handles array over
`sizeof(int) * count` bytes, the events array over
`sizeof(SelectEvent) * count` bytes and the selected output pointer; if
any of the three fails it returns `ERR_BAD_ADDRESS` without invoking the
underlying blocking select, and if all three pass it delegates to
`task_fshandle_select`. -/
theorem c6_select_validates (env : TaskLayer) (handles events count selected : Nat) :
    (¬(syscall_validate_ptr handles ((sizeof_int * count) % UINT32_MOD) = true ∧
       syscall_validate_ptr events ((sizeof_SelectEvent * count) % UINT32_MOD) = true ∧
       syscall_validate_ptr selected sizeof_int = true) →
      sys_handle_select env handles events count selected = (ERR_BAD_ADDRESS, [])) ∧
    ((syscall_validate_ptr handles ((sizeof_int * count) % UINT32_MOD) = true ∧
      syscall_validate_ptr events ((sizeof_SelectEvent * count) % UINT32_MOD) = true ∧
      syscall_validate_ptr selected sizeof_int = true) →
      sys_handle_select env handles events count selected =
        (env.task_fshandle_select handles events count selected,
         [KernelCall.taskFshandleSelect handles events count selected])) := by
  constructor
  · intro h
    by_cases h1 : syscall_validate_ptr handles ((sizeof_int * count) % UINT32_MOD) = true
    · by_cases h2 : syscall_validate_ptr events ((sizeof_SelectEvent * count) % UINT32_MOD) = true
      · by_cases h3 : syscall_validate_ptr selected sizeof_int = true
        · exact absurd ⟨h1, h2, h3⟩ h
        · simp only [Bool.not_eq_true] at h3
          simp [sys_handle_select, h3]
      · simp only [Bool.not_eq_true] at h2
        simp [sys_handle_select, h2]
    · simp only [Bool.not_eq_true] at h1
      simp [sys_handle_select, h1]
  · intro ⟨h1, h2, h3⟩
    simp [sys_handle_select, h1, h2, h3]

/-- C6 witness: with the selected output pointer 0 (below the watermark)
select fails with `ERR_BAD_ADDRESS` and invokes nothing. -/
theorem c6_witness :
    sys_handle_select envZero 0x200000 0x300000 1 0 = (ERR_BAD_ADDRESS, []) :=
  (c6_select_validates envZero 0x200000 0x300000 1 0).1 (by decide)

/-- C7: `sys_process_free` returns 0 (success) unconditionally — even
when the underlying `task_memory_free` rejects the request with a
negative error, the error never reaches the caller. -/
theorem c7_free_discards_error :
    envFreeFails.task_memory_free 0 0 = -14 ∧
    sys_process_free envFreeFails 0 0 = (0, [KernelCall.taskMemoryFree 0 0]) ∧
    (∀ env : TaskLayer, ∀ addr count : Nat, (sys_process_free env addr count).1 = 0) :=
  ⟨rfl, rfl, fun _ _ _ => rfl⟩

/-- The i386 register file passed to `syscall_dispatcher`
(`processor_context_t`): each register is a 32-bit value. -/
structure processor_context_t where
  eax : Nat
  ebx : Nat
  ecx : Nat
  edx : Nat
  esi : Nat
  edi : Nat
deriving DecidableEq

/-- The type of a syscall handler as the dispatcher sees it:
`int (*)(int, int, int, int, int)`. -/
def SyscallHandler := Int → Int → Int → Int → Int → Int

/-- A line emitted through the kernel logger by `syscall_get_handler` or
`syscall_dispatcher`; the payload text is irrelevant, only which line was
emitted. -/
inductive LogEvent where
  | errorNotImplemented (syscall : Int)
  | errorUnknownSyscall (syscall : Int)
  | infoContextDump
  | infoSyscallFailure (syscall : Int)
deriving DecidableEq

/-- `syscall_get_handler` from `syscalls.c`, parameterised over the
dispatch table (the `syscalls` array, of length `__SYSCALL_COUNT`, whose
enumeration header is not among the given sources; `none` embeds a NULL
entry): in-range NULL entries are logged as not implemented and returned
as `none`; out-of-range identifiers are logged as unknown and return
`none`. Also yields the log lines it emits. -/
def syscall_get_handler (table : Int → Option SyscallHandler) (count : Int)
    (syscall : Int) : Option SyscallHandler × List LogEvent :=
  if 0 ≤ syscall ∧ syscall < count then
    match table syscall with
    | none => (none, [LogEvent.errorNotImplemented syscall])
    | some handler => (some handler, [])
  else
    (none, [LogEvent.errorUnknownSyscall syscall])

/-- The value `syscall_dispatcher` stores into `context->eax`: the
handler's result (truncated to the 32-bit register) when a handler was
found, and the bit pattern of `-ERR_FUNCTION_NOT_IMPLEMENTED` otherwise. -/
def syscall_stored_result (table : Int → Option SyscallHandler) (count : Int)
    (context : processor_context_t) : Nat :=
  match (syscall_get_handler table count (toInt32 context.eax)).1 with
  | some handler =>
      toUInt32 (handler (toInt32 context.ebx) (toInt32 context.ecx) (toInt32 context.edx)
        (toInt32 context.esi) (toInt32 context.edi))
  | none => toUInt32 (-ERR_FUNCTION_NOT_IMPLEMENTED)

/-- The handler invocation `syscall_dispatcher` performs: the syscall id
whose handler ran, or `none` when the not-implemented branch was taken
and no handler (hence no user-supplied pointer) was touched. -/
def syscall_invoked (table : Int → Option SyscallHandler) (count : Int)
    (context : processor_context_t) : Option Int :=
  match (syscall_get_handler table count (toInt32 context.eax)).1 with
  | some _ => some (toInt32 context.eax)
  | none => none

/-- The log line of the dispatcher's not-implemented branch (the context
dump `logger_info`); empty when a handler ran. -/
def syscall_branch_logs (table : Int → Option SyscallHandler) (count : Int)
    (context : processor_context_t) : List LogEvent :=
  match (syscall_get_handler table count (toInt32 context.eax)).1 with
  | some _ => []
  | none => [LogEvent.infoContextDump]

/-- The two failure-logging steps at the end of `syscall_dispatcher`:
for `syscall >= SYS_HANDLE_OPEN` a line whenever the stored `eax` is not
`ERR_SUCCESS`, and for `syscall < SYS_HANDLE_OPEN` a line whenever the
stored `eax` is negative as a signed `int`. -/
def syscall_failure_logs (sysHandleOpen syscall : Int) (eax : Nat) : List LogEvent :=
  (if sysHandleOpen ≤ syscall ∧ ¬((eax : Int) = ERR_SUCCESS) then
     [LogEvent.infoSyscallFailure syscall]
   else []) ++
  (if syscall < sysHandleOpen ∧ toInt32 eax < 0 then
     [LogEvent.infoSyscallFailure syscall]
   else [])

/-- The outcome of one `syscall_dispatcher` run: the mutated register
file, the handler invocation performed (if any), and the log lines
emitted, in order. -/
structure DispatchResult where
  ctx : processor_context_t
  invoked : Option Int
  logs : List LogEvent
deriving DecidableEq

/-- `syscall_dispatcher` from `syscalls.c`, parameterised over the
dispatch table, its length `__SYSCALL_COUNT` and the threshold identifier
`SYS_HANDLE_OPEN` (both from the enumeration header not among the given
sources): reads the syscall id from `eax`, looks up the handler, stores
the handler's result (or `-ERR_FUNCTION_NOT_IMPLEMENTED`) into `eax`,
leaves every other register untouched, and then runs the two
failure-logging steps on the stored result. -/
def syscall_dispatcher (table : Int → Option SyscallHandler) (count sysHandleOpen : Int)
    (context : processor_context_t) : DispatchResult :=
  { ctx := { context with eax := syscall_stored_result table count context },
    invoked := syscall_invoked table count context,
    logs := (syscall_get_handler table count (toInt32 context.eax)).2 ++
            syscall_branch_logs table count context ++
            syscall_failure_logs sysHandleOpen (toInt32 context.eax)
              (syscall_stored_result table count context) }

/-- For an out-of-range identifier or an unassigned (NULL) table entry,
`syscall_get_handler` yields no handler. -/
theorem get_handler_none (table : Int → Option SyscallHandler) (count syscall : Int)
    (h : syscall < 0 ∨ count ≤ syscall ∨ table syscall = none) :
    (syscall_get_handler table count syscall).1 = none := by
  unfold syscall_get_handler
  by_cases hc : 0 ≤ syscall ∧ syscall < count
  · rcases h with h | h | h
    · exact absurd hc.1 (by omega)
    · exact absurd hc.2 (by omega)
    · rw [if_pos hc, h]
  · rw [if_neg hc]

/-- `syscall_get_handler` never emits the per-result failure line. -/
theorem get_handler_no_failure_log (table : Int → Option SyscallHandler)
    (count syscall s : Int) :
    LogEvent.infoSyscallFailure s ∉ (syscall_get_handler table count syscall).2 := by
  unfold syscall_get_handler
  by_cases hc : 0 ≤ syscall ∧ syscall < count
  · rw [if_pos hc]
    cases table syscall <;> simp
  · rw [if_neg hc]
    simp

/-- The dispatcher's not-implemented branch never emits the per-result
failure line. -/
theorem branch_logs_no_failure (table : Int → Option SyscallHandler) (count : Int)
    (context : processor_context_t) (s : Int) :
    LogEvent.infoSyscallFailure s ∉ syscall_branch_logs table count context := by
  unfold syscall_branch_logs
  cases (syscall_get_handler table count (toInt32 context.eax)).1 <;> simp

/-- Membership of the failure line in the dispatcher's final logging
steps is exactly the disjunction of the two logging conditions. -/
theorem failure_logs_mem (sysHandleOpen syscall : Int) (eax : Nat) :
    LogEvent.infoSyscallFailure syscall ∈ syscall_failure_logs sysHandleOpen syscall eax ↔
      (sysHandleOpen ≤ syscall ∧ ¬((eax : Int) = ERR_SUCCESS)) ∨
      (syscall < sysHandleOpen ∧ toInt32 eax < 0) := by
  unfold syscall_failure_logs
  split_ifs with h1 h2 h2 <;> simp [h1, h2]

/-- C2: for every identifier outside `[0, __SYSCALL_COUNT)` and for every
in-range identifier whose table entry is unassigned (NULL), the
dispatcher invokes no handler and stores the bit pattern of the negative
code `-ERR_FUNCTION_NOT_IMPLEMENTED` into `eax`, which reads back as that
negative value. -/
theorem c2_not_implemented (table : Int → Option SyscallHandler)
    (count sysHandleOpen : Int) (context : processor_context_t)
    (h : toInt32 context.eax < 0 ∨ count ≤ toInt32 context.eax ∨
         table (toInt32 context.eax) = none) :
    (syscall_dispatcher table count sysHandleOpen context).invoked = none ∧
    (syscall_dispatcher table count sysHandleOpen context).ctx.eax =
      toUInt32 (-ERR_FUNCTION_NOT_IMPLEMENTED) ∧
    toInt32 ((syscall_dispatcher table count sysHandleOpen context).ctx.eax) =
      -ERR_FUNCTION_NOT_IMPLEMENTED := by
  have hnone := get_handler_none table count (toInt32 context.eax) h
  refine ⟨?_, ?_, ?_⟩
  · show syscall_invoked table count context = none
    unfold syscall_invoked
    rw [hnone]
  · show syscall_stored_result table count context = _
    unfold syscall_stored_result
    rw [hnone]
  · show toInt32 (syscall_stored_result table count context) = _
    unfold syscall_stored_result
    rw [hnone]
    show toInt32 (toUInt32 (-ERR_FUNCTION_NOT_IMPLEMENTED)) = -ERR_FUNCTION_NOT_IMPLEMENTED
    decide

/-- C2 witness: a dispatch table with an unassigned entry at id 3
(within `[0, 47)`) makes the dispatcher invoke nothing and store the
not-implemented error. -/
theorem c2_witness :
    (syscall_dispatcher (fun _ => none) 47 32 ⟨3, 1, 2, 3, 4, 5⟩).invoked = none ∧
    (syscall_dispatcher (fun _ => none) 47 32 ⟨3, 1, 2, 3, 4, 5⟩).ctx.eax =
      toUInt32 (-ERR_FUNCTION_NOT_IMPLEMENTED) ∧
    toInt32 ((syscall_dispatcher (fun _ => none) 47 32 ⟨3, 1, 2, 3, 4, 5⟩).ctx.eax) =
      -ERR_FUNCTION_NOT_IMPLEMENTED :=
  c2_not_implemented (fun _ => none) 47 32 ⟨3, 1, 2, 3, 4, 5⟩ (Or.inr (Or.inr rfl))

/-- C8: after the result is stored, the dispatcher emits the failure line
exactly when the identifier is at or above `SYS_HANDLE_OPEN` and the
stored result is not `ERR_SUCCESS`, or the identifier is below
`SYS_HANDLE_OPEN` and the stored result is negative as a signed `int`;
and the result delivered in `eax` is exactly the stored one — logging
never modifies it. -/
theorem c8_failure_logging (table : Int → Option SyscallHandler)
    (count sysHandleOpen : Int) (context : processor_context_t) :
    (LogEvent.infoSyscallFailure (toInt32 context.eax) ∈
        (syscall_dispatcher table count sysHandleOpen context).logs ↔
      (sysHandleOpen ≤ toInt32 context.eax ∧
        ¬(((syscall_dispatcher table count sysHandleOpen context).ctx.eax : Int) =
          ERR_SUCCESS)) ∨
      (toInt32 context.eax < sysHandleOpen ∧
        toInt32 ((syscall_dispatcher table count sysHandleOpen context).ctx.eax) < 0)) ∧
    (syscall_dispatcher table count sysHandleOpen context).ctx.eax =
      syscall_stored_result table count context := by
  refine ⟨?_, rfl⟩
  show LogEvent.infoSyscallFailure (toInt32 context.eax) ∈
      (syscall_get_handler table count (toInt32 context.eax)).2 ++
      syscall_branch_logs table count context ++
      syscall_failure_logs sysHandleOpen (toInt32 context.eax)
        (syscall_stored_result table count context) ↔ _
  rw [List.mem_append, List.mem_append]
  have h1 := get_handler_no_failure_log table count (toInt32 context.eax) (toInt32 context.eax)
  have h2 := branch_logs_no_failure table count context (toInt32 context.eax)
  have h3 := failure_logs_mem sysHandleOpen (toInt32 context.eax)
    (syscall_stored_result table count context)
  simp only [h1, h2, false_or]
  exact h3

/-- C10: the dispatcher mutates only `eax`: the argument registers
`ebx`, `ecx`, `edx`, `esi` and `edi` are identical before and after
dispatch, for every table and every incoming context. -/
theorem c10_registers_preserved (table : Int → Option SyscallHandler)
    (count sysHandleOpen : Int) (context : processor_context_t) :
    (syscall_dispatcher table count sysHandleOpen context).ctx.ebx = context.ebx ∧
    (syscall_dispatcher table count sysHandleOpen context).ctx.ecx = context.ecx ∧
    (syscall_dispatcher table count sysHandleOpen context).ctx.edx = context.edx ∧
    (syscall_dispatcher table count sysHandleOpen context).ctx.esi = context.esi ∧
    (syscall_dispatcher table count sysHandleOpen context).ctx.edi = context.edi :=
  ⟨rfl, rfl, rfl, rfl, rfl⟩
